import Mathlib

/-!
Verification of the `data-analyzer-back` analysis engine
(`src/data_analysis/analyzers.py`, class `DatasetAnalyzer`).

The pandas `DataFrame` built by the loader is embedded as a list of named
columns of cells.  A cell is either a (finite, exact) number, a string, or
the null marker (pandas `NaN`).  All floating-point arithmetic of the
source is idealised as exact rational arithmetic; Python's `round` is
modelled half-to-even on exact rationals (`pyRound`).  Every concrete
input used in a theorem below stays away from representation boundaries
where binary floats and exact rationals could round differently.
-/

/-- A single cell of the parsed CSV frame: a number, a string, or NaN. -/
inductive Cell where
  | num (q : ℚ)
  | str (s : String)
  | null
deriving DecidableEq, Repr

/-- Whether the cell is the null (NaN) marker. -/
def Cell.isNull : Cell → Bool
  | .null => true
  | _ => false

/-- Whether the cell holds a string. -/
def Cell.isStr : Cell → Bool
  | .str _ => true
  | _ => false

/-- A named column of the frame.  All cells of one pandas column share a
dtype; numeric (`int64`/`float64`) columns hold `num`/`null` cells, while
`object` columns hold `str`/`null` cells (numbers that appear in an
`object` column are kept in their string form by `read_csv`). -/
structure Col where
  name : String
  cells : List Cell
deriving DecidableEq, Repr

/-- A column has a numeric dtype iff no cell is a string (an all-null
column is `float64`, hence numeric, in pandas). -/
def Col.isNumeric (c : Col) : Bool :=
  c.cells.all (fun x => !x.isStr)

/-- The numeric values of a column, position by position (`none` = NaN). -/
def Col.numVals (c : Col) : List (Option ℚ) :=
  c.cells.map (fun x => match x with | .num q => some q | _ => none)

/-- The non-null numeric values of a column, in order (pandas skips NaN
in `mean`, `quantile`, comparisons, ...). -/
def Col.nonNullNum (c : Col) : List ℚ :=
  c.cells.filterMap (fun x => match x with | .num q => some q | _ => none)

/-- `series.isnull().sum()` for one column. -/
def Col.nullCount (c : Col) : ℕ :=
  c.cells.countP Cell.isNull

/-- The in-memory frame (`self.df`): an ordered list of named columns. -/
structure Df where
  cols : List Col
deriving DecidableEq, Repr

/-- `self.df.shape[0]`: the common row count (read off the first column). -/
def Df.nRows (df : Df) : ℕ :=
  ((df.cols.head?).map (fun c => c.cells.length)).getD 0

/-- `self.df.shape[1]`: the number of columns. -/
def Df.nCols (df : Df) : ℕ :=
  df.cols.length

/-- Well-formedness: every column has exactly `nRows` cells (guaranteed
for every frame produced by `read_csv`). -/
def Df.Wf (df : Df) : Prop :=
  ∀ c ∈ df.cols, c.cells.length = df.nRows

instance (df : Df) : Decidable df.Wf := by
  unfold Df.Wf; infer_instance

/-- The rows of the frame as tuples of cells, used by `df.duplicated()`
(the default `.null` is never reached on a well-formed frame). -/
def Df.rowsList (df : Df) : List (List Cell) :=
  (List.range df.nRows).map (fun i => df.cols.map (fun c => c.cells.getD i .null))

/-- `df.empty`: true iff some axis has length 0. -/
def Df.isEmpty (df : Df) : Bool :=
  df.nRows == 0 || df.nCols == 0

/-- Python's built-in `round` to an integer, modelled on exact rationals:
round half to even. -/
def pyRound (q : ℚ) : ℤ :=
  if q - ⌊q⌋ = 1/2 then (if ⌊q⌋ % 2 = 0 then ⌊q⌋ else ⌊q⌋ + 1) else ⌊q + 1/2⌋

/-- Python's `round(q, 2)`. -/
def round2 (q : ℚ) : ℚ :=
  (pyRound (q * 100) : ℚ) / 100

/-- Python's `round(q, 1)`. -/
def round1 (q : ℚ) : ℚ :=
  (pyRound (q * 10) : ℚ) / 10

/-- `⌊√q⌋` for a rational `q ≥ 0`, via `⌊√q⌋ = ⌊√⌊q⌋⌋` (valid because
`k² ≤ q ↔ k² ≤ ⌊q⌋` for natural `k`). -/
def ratSqrtFloor (q : ℚ) : ℕ :=
  Nat.sqrt (⌊q⌋.toNat)

/-- `⌊√q + 1/2⌋`, i.e. `√q` rounded half-up, via
`⌊√q + 1/2⌋ = ⌊(√(4q) + 1)/2⌋ = (⌊√(4q)⌋ + 1) / 2`. -/
def ratSqrtRound (q : ℚ) : ℕ :=
  (ratSqrtFloor (4 * q) + 1) / 2

/-- Stable insertion of `x` into a list sorted descending by `key`: `x`
goes before the first strictly smaller key, after all ties.  Together
with `isortDesc` this models Python's stable
`sorted(key=..., reverse=True)` (ties keep their original order). -/
def insDesc (key : α → ℚ) (x : α) : List α → List α
  | [] => [x]
  | b :: t => if key b ≤ key x then x :: b :: t else b :: insDesc key x t

/-- Stable sort, descending by `key` (model of Python's
`sorted(l, key=..., reverse=True)`). -/
def isortDesc (key : α → ℚ) : List α → List α
  | [] => []
  | x :: xs => insDesc key x (isortDesc key xs)

/-- Insertion (ascending) used to sort values for the quantile. -/
def insAsc (x : ℚ) : List ℚ → List ℚ
  | [] => [x]
  | b :: t => if x ≤ b then x :: b :: t else b :: insAsc x t

/-- Ascending sort of rational values. -/
def isortAsc : List ℚ → List ℚ
  | [] => []
  | x :: xs => insAsc x (isortAsc xs)

/-- `series.quantile(p)` with pandas' default linear interpolation over
the sorted non-null values: with `h = (n-1)·p`, the result is
`v⌊h⌋ + (h - ⌊h⌋)·(v⌊h⌋₊₁ - v⌊h⌋)`.  Returns 0 on an empty value list
(pandas gives NaN there; the callers below never use that case). -/
def quantile (vals : List ℚ) (p : ℚ) : ℚ :=
  let s := isortAsc vals
  let n := s.length
  if n = 0 then 0
  else
    let h : ℚ := ((n : ℚ) - 1) * p
    let k : ℕ := (⌊h⌋).toNat
    let vk := s.getD k 0
    let vk1 := s.getD (k + 1) vk
    vk + (h - (k : ℚ)) * (vk1 - vk)

/-- One entry of `columns_with_outliers`. -/
structure OutlierCol where
  column : String
  outlier_count : ℕ
  percentage : ℚ
deriving DecidableEq, Repr

/-- Result of `DatasetAnalyzer.detect_outliers`. -/
structure OutlierReport where
  columns_with_outliers : List OutlierCol
  total_outlier_percentage : ℚ
deriving DecidableEq, Repr

/-- The number of outliers of one numeric column: values strictly
outside `[Q1 - 1.5·IQR, Q3 + 1.5·IQR]`.  NaN cells satisfy no strict
comparison in pandas, so only non-null values can be outliers, and the
quantiles ignore NaN as well. -/
def outlierCount (c : Col) : ℕ :=
  let vals := c.nonNullNum
  let q1 := quantile vals (1/4)
  let q3 := quantile vals (3/4)
  let iqr := q3 - q1
  let lowerBound := q1 - 3/2 * iqr
  let upperBound := q3 + 3/2 * iqr
  vals.countP (fun v => decide (v < lowerBound) || decide (upperBound < v))

/-- `DatasetAnalyzer.detect_outliers`: per numeric column, count the rows
strictly outside the IQR bounds; report only columns with at least one
outlier; the total percentage is the plain sum of the per-column
percentages. -/
def detect_outliers (df : Df) : OutlierReport :=
  let infos := (df.cols.filter Col.isNumeric).filterMap (fun c =>
    let cnt := outlierCount c
    if cnt > 0 then some ⟨c.name, cnt, round2 ((cnt : ℚ) / (df.nRows : ℚ) * 100)⟩ else none)
  { columns_with_outliers := infos
    total_outlier_percentage := (infos.map OutlierCol.percentage).sum }

/-- One entry of `columns_with_missing`. -/
structure MissingCol where
  column : String
  missing_count : ℕ
  percentage : ℚ
deriving DecidableEq, Repr

/-- Result of `DatasetAnalyzer.analyze_missing_data`. -/
structure MissingReport where
  columns_with_missing : List MissingCol
  total_missing_percentage : ℚ
  total_missing_values : ℕ
deriving DecidableEq, Repr

/-- The dataset-wide null count `self.df.isnull().sum().sum()`. -/
def Df.totalMissing (df : Df) : ℕ :=
  (df.cols.map Col.nullCount).sum

/-- `DatasetAnalyzer.analyze_missing_data`: per-column null counts and
percentages (only columns with at least one null are listed), plus the
dataset-wide count and percentage over all `rows × columns` cells. -/
def analyze_missing_data (df : Df) : MissingReport :=
  { columns_with_missing := df.cols.filterMap (fun c =>
      if c.nullCount > 0 then
        some ⟨c.name, c.nullCount, round2 ((c.nullCount : ℚ) / (df.nRows : ℚ) * 100)⟩
      else none)
    total_missing_percentage :=
      round2 ((df.totalMissing : ℚ) / ((df.nRows : ℚ) * (df.nCols : ℚ)) * 100)
    total_missing_values := df.totalMissing }

/-- `seq.duplicated().sum()` with pandas' default `keep='first'`: an
element counts iff an equal element occurs earlier; `seen` carries the
already-scanned prefix.  pandas treats NaN as equal to NaN here, as does
the embedded `Cell` equality. -/
def dupCount [DecidableEq α] : List α → List α → ℕ
  | _, [] => 0
  | seen, r :: rs => (if r ∈ seen then 1 else 0) + dupCount (r :: seen) rs

/-- The number of distinct elements of the suffix that do not already
occur in `seen` (companion of `dupCount`). -/
def distinctCount [DecidableEq α] : List α → List α → ℕ
  | _, [] => 0
  | seen, r :: rs => (if r ∈ seen then 0 else 1) + distinctCount (r :: seen) rs

/-- `self.df.duplicated().sum()`: fully identical rows, all but the
first occurrence of each group. -/
def Df.totalDuplicates (df : Df) : ℕ :=
  dupCount [] df.rowsList

/-- Result of `DatasetAnalyzer.analyze_duplicates`. -/
structure DupReport where
  total_duplicates : ℕ
  percentage : ℚ
  columns_contributing : List String
deriving DecidableEq, Repr

/-- `DatasetAnalyzer.analyze_duplicates`: full-row duplicate count and
percentage, plus up to 5 object-dtype columns that individually contain
duplicate values (`df.duplicated(subset=[col])`). -/
def analyze_duplicates (df : Df) : DupReport :=
  { total_duplicates := df.totalDuplicates
    percentage := round2 ((df.totalDuplicates : ℚ) / (df.nRows : ℚ) * 100)
    columns_contributing :=
      (df.cols.filterMap (fun c =>
        if !c.isNumeric && dupCount [] c.cells > 0 then some c.name else none)).take 5 }

/-- Result of `DatasetAnalyzer.calculate_data_quality`. -/
structure QualityReport where
  completeness : ℚ
  consistency : ℚ
  validity : ℚ
  uniqueness : ℚ
deriving DecidableEq, Repr

/-- `DatasetAnalyzer.calculate_data_quality`.  The consistency score is
the hard-coded placeholder `85.0` of the source.  The per-column validity
counts `np.isinf(col).sum() + col.isnull().sum()`; the `Cell` model holds
only finite numbers, so the `isinf` summand is identically zero. -/
def calculate_data_quality (df : Df) : QualityReport :=
  let totalCells : ℚ := (df.nRows : ℚ) * (df.nCols : ℚ)
  let completeness := (totalCells - (df.totalMissing : ℚ)) / totalCells * 100
  let numeric := df.cols.filter Col.isNumeric
  let validityScores := numeric.map (fun c =>
    ((df.nRows : ℚ) - (c.nullCount : ℚ)) / (df.nRows : ℚ) * 100)
  let validity :=
    if validityScores = [] then 95 else validityScores.sum / (validityScores.length : ℚ)
  let dupPct := (df.totalDuplicates : ℚ) / (df.nRows : ℚ) * 100
  { completeness := round1 completeness
    consistency := round1 85
    validity := round1 validity
    uniqueness := round1 (100 - dupPct) }

/-- One emitted correlation record `{var1, var2, correlation}`. -/
structure CorrEntry where
  var1 : String
  var2 : String
  correlation : ℚ
deriving DecidableEq, Repr

/-- Pearson numerator `S = Σ(x-x̄)(y-ȳ)` and squared denominator
`P = Σ(x-x̄)² · Σ(y-ȳ)²` of a column pair, over the pairwise-complete
rows (pandas `DataFrame.corr` drops a row for a pair iff either value is
NaN).  The correlation itself is `S/√P`; it is NaN iff `P = 0`. -/
def pairStats (xs ys : List (Option ℚ)) : ℚ × ℚ :=
  let ps := (xs.zip ys).filterMap (fun p =>
    match p with | (some a, some b) => some (a, b) | _ => none)
  let n : ℚ := (ps.length : ℚ)
  let mx := (ps.map Prod.fst).sum / n
  let my := (ps.map Prod.snd).sum / n
  let s := (ps.map (fun p => (p.1 - mx) * (p.2 - my))).sum
  let px := (ps.map (fun p => (p.1 - mx) ^ 2)).sum
  let py := (ps.map (fun p => (p.2 - my) ^ 2)).sum
  (s, px * py)

/-- `round(correlation, 3)` where `correlation = S/√P`: the magnitude
`⌊1000·|S|/√P + 1/2⌋ = ⌊√(10⁶·S²/P) + 1/2⌋` is computed by `ratSqrtRound`
and the sign of `S` is reattached.  (Half-way ties, where Python's float
`round` is half-to-even, are not hit by any input considered here.) -/
def roundCorr3 (s p : ℚ) : ℚ :=
  (if s < 0 then -1 else 1) * (ratSqrtRound (1000000 * s ^ 2 / p) : ℚ) / 1000

/-- All unordered pairs, first component strictly before the second, in
the iteration order of the source loops (`i` ascending, then `j`
ascending). -/
def pairsOf : List α → List (α × α)
  | [] => []
  | x :: xs => xs.map (fun y => (x, y)) ++ pairsOf xs

/-- The candidate list of `calculate_correlations` before sorting: for
each numeric-column pair in loop order, keep it iff the correlation is
defined (`P ≠ 0`) and `|S/√P| > 0.3`, which over exact rationals is
`100·S² > 9·P`; the emitted record carries the 3-decimal rounded value. -/
def corrCandidates (df : Df) : List CorrEntry :=
  (pairsOf (df.cols.filter Col.isNumeric)).filterMap (fun pr =>
    let sp := pairStats pr.1.numVals pr.2.numVals
    if sp.2 ≠ 0 ∧ 100 * sp.1 ^ 2 > 9 * sp.2 then
      some ⟨pr.1.name, pr.2.name, roundCorr3 sp.1 sp.2⟩
    else none)

/-- The sort key of `sorted(correlations, key=lambda x: abs(x[...]))`:
the absolute value of the already-rounded correlation. -/
def corrKey (e : CorrEntry) : ℚ :=
  |e.correlation|

/-- `DatasetAnalyzer.calculate_correlations`: empty with fewer than two
numeric columns; otherwise the candidates sorted stably by descending
absolute (rounded) correlation, truncated to the top 10. -/
def calculate_correlations (df : Df) : List CorrEntry :=
  if (df.cols.filter Col.isNumeric).length < 2 then []
  else (isortDesc corrKey (corrCandidates df)).take 10

/-- The frequency table underlying `series.value_counts()`: each distinct
non-null cell with its total occurrence count and the position of its
first occurrence, listed in first-seen order. -/
def tallyFrom : ℕ → List Cell → List (Cell × ℕ × ℕ)
  | _, [] => []
  | i, c :: rest =>
    if c.isNull then tallyFrom (i + 1) rest
    else (c, 1 + rest.count c, i) ::
      (tallyFrom (i + 1) rest).filter (fun t => !(t.1 == c))

/-- `series.value_counts()`: distinct non-null values with their counts,
sorted by descending count.  The pandas hash table enumerates keys in
first-encountered order and the sort is modelled as stable, so ties keep
first-seen order. -/
def value_counts (c : Col) : List (Cell × ℕ × ℕ) :=
  isortDesc (fun t => ((t.2.1 : ℚ))) (tallyFrom 0 c.cells)

/-- `series.value_counts().head(5)` as emitted in `most_frequent`:
value/count pairs of the five most frequent values. -/
def mostFrequent (c : Col) : List (Cell × ℕ) :=
  ((value_counts c).take 5).map (fun t => (t.1, t.2.1))

/-- `series.nunique()`: distinct non-null values. -/
def Col.nunique (c : Col) : ℕ :=
  (tallyFrom 0 c.cells).length

/-- Sample variance with pandas' default `ddof=1` (used by
`series.std()`), over the non-null values. -/
def sampleVar (vals : List ℚ) : ℚ :=
  let n : ℚ := (vals.length : ℚ)
  let m := vals.sum / n
  (vals.map (fun v => (v - m) ^ 2)).sum / (n - 1)

/-- `round(√v, 2)` for `v ≥ 0`, used for the rounded standard
deviation: `⌊100·√v + 1/2⌋ = ⌊√(10⁴·v) + 1/2⌋` over 100. -/
def roundSqrt2 (v : ℚ) : ℚ :=
  (ratSqrtRound (10000 * v) : ℚ) / 100

/-- Per-column statistics record of `get_column_statistics`; `none`
models the `None` emitted when a statistic is NaN (e.g. an all-null
column, or `std` of a single value). -/
inductive ColStat where
  | numeric (mean median std minv maxv : Option ℚ)
      (unique_values : ℕ) (missing_count : ℕ)
  | categorical (unique_values : ℕ) (most_frequent : List (Cell × ℕ))
      (missing_count : ℕ)
deriving DecidableEq, Repr

/-- The statistics of one column, branching on the dtype as the source
does (`int64`/`float64` vs everything else). -/
def colStat (c : Col) : ColStat :=
  if c.isNumeric then
    match c.nonNullNum with
    | [] => .numeric none none none none none c.nunique c.nullCount
    | v :: vs =>
      let vals := v :: vs
      .numeric
        (some (round2 (vals.sum / (vals.length : ℚ))))
        (some (round2 (quantile vals (1/2))))
        (if vs = [] then none else some (roundSqrt2 (sampleVar vals)))
        (some (round2 (vs.foldl min v)))
        (some (round2 (vs.foldl max v)))
        c.nunique c.nullCount
  else
    .categorical c.nunique (mostFrequent c) c.nullCount

/-- `DatasetAnalyzer.get_column_statistics`: the per-column records in
column order, keyed by column name. -/
def get_column_statistics (df : Df) : List (String × ColStat) :=
  df.cols.map (fun c => (c.name, colStat c))

/-- One `{issue, description, action}` advisory record. -/
structure Recommendation where
  issue : String
  description : String
  action : String
deriving DecidableEq, Repr

/-- The three fixed severity tiers of `generate_recommendations`; the
structure type itself enforces that a result has exactly the tiers
`critical`, `moderate` and `optional`. -/
structure Recommendations where
  critical : List Recommendation
  moderate : List Recommendation
  optional : List Recommendation
deriving DecidableEq, Repr

/-- The critical advisory emitted when `total_missing_percentage > 10`. -/
def missingRec (df : Df) : Recommendation :=
  { issue := "Valores faltantes elevados"
    description := "El dataset tiene " ++
      toString (analyze_missing_data df).total_missing_percentage ++
      "% de valores faltantes"
    action := "Implementar estrategias de imputación o eliminación de registros" }

/-- The critical advisory emitted when `total_duplicates > 0`. -/
def dupRec (df : Df) : Recommendation :=
  { issue := "Datos duplicados"
    description := "Se encontraron " ++
      toString (analyze_duplicates df).total_duplicates ++
      " registros duplicados"
    action := "Eliminar o consolidar registros duplicados" }

/-- The moderate advisory emitted when `total_outlier_percentage > 5`. -/
def outlierRec (df : Df) : Recommendation :=
  { issue := "Valores atípicos detectados"
    description := "Se detectaron outliers en " ++
      toString (detect_outliers df).columns_with_outliers.length ++ " columnas"
    action := "Revisar y decidir tratamiento de valores atípicos" }

/-- The moderate advisory emitted when `consistency < 80`. -/
def consistencyRec (df : Df) : Recommendation :=
  { issue := "Consistencia baja"
    description := "Consistencia de datos: " ++
      toString (calculate_data_quality df).consistency ++ "%"
    action := "Revisar formato y tipos de datos" }

/-- The optional advisory emitted when at least one numeric column exists. -/
def normalizationRec : Recommendation :=
  { issue := "Normalización de datos"
    description := "Considerar normalización para columnas numéricas"
    action := "Aplicar StandardScaler o MinMaxScaler" }

/-- The optional advisory emitted when at least one object column exists. -/
def encodingRec : Recommendation :=
  { issue := "Encoding de variables categóricas"
    description := "Variables categóricas requieren encoding para ML"
    action := "Aplicar One-Hot Encoding o Label Encoding" }

/-- `DatasetAnalyzer.generate_recommendations`: six independent rules
appended in source order into the three fixed tiers. -/
def generate_recommendations (df : Df) : Recommendations :=
  { critical :=
      (if (analyze_missing_data df).total_missing_percentage > 10
        then [missingRec df] else []) ++
      (if (analyze_duplicates df).total_duplicates > 0 then [dupRec df] else [])
    moderate :=
      (if (detect_outliers df).total_outlier_percentage > 5
        then [outlierRec df] else []) ++
      (if (calculate_data_quality df).consistency < 80
        then [consistencyRec df] else [])
    optional :=
      (if 0 < (df.cols.filter Col.isNumeric).length then [normalizationRec] else []) ++
      (if 0 < (df.cols.filter (fun c => !c.isNumeric)).length then [encodingRec] else []) }

/-- The dtype label reported for a column (`read_csv` without further
hints infers `int64`, `float64` or `object`; it never infers
`datetime64`, so the temporal count below is always 0). -/
def Col.dtypeStr (c : Col) : String :=
  if c.isNumeric then
    if c.cells.all (fun x => match x with | .num q => q.den == 1 | _ => false)
    then "int64" else "float64"
  else "object"

/-- Result of `DatasetAnalyzer.get_basic_info`.  The `file_size` field of
the source (`df.memory_usage(deep=True)`) reflects the pandas in-memory
byte layout and is not representable in this embedding; no claim
concerns it and it is omitted. -/
structure BasicInfo where
  total_rows : ℕ
  total_columns : ℕ
  numericTypeCount : ℕ
  objectTypeCount : ℕ
  datetimeTypeCount : ℕ
  column_names : List String
  dtypes : List (String × String)
deriving DecidableEq, Repr

/-- `DatasetAnalyzer.get_basic_info`. -/
def get_basic_info (df : Df) : BasicInfo :=
  { total_rows := df.nRows
    total_columns := df.nCols
    numericTypeCount := (df.cols.filter Col.isNumeric).length
    objectTypeCount := (df.cols.filter (fun c => !c.isNumeric)).length
    datetimeTypeCount := 0
    column_names := df.cols.map Col.name
    dtypes := df.cols.map (fun c => (c.name, c.dtypeStr)) }

/-- Outcome of the `pd.read_csv` call as seen by `DatasetAnalyzer.__init__`:
a parsed frame, or one of the three exception classes the source catches
specifically.  (Library behaviour, not repository code: content with no
tokens raises `EmptyDataError`, undecodable bytes raise
`UnicodeDecodeError`, structurally broken CSV raises `ParserError`; a
header-only document parses to a frame with zero rows.) -/
inductive ReadCsvResult where
  | ok (df : Df)
  | emptyDataError
  | parserError (msg : String)
  | unicodeDecodeError (msg : String)
deriving DecidableEq, Repr

/-- `DatasetAnalyzer.__init__` after the `read_csv` call: the message of
the raised `ValueError`, or the loaded frame.  Faithful to the source's
control flow: the `ValueError` raised for an empty parsed frame at line
30 is raised *inside* the `try` block, so it is caught by the final
`except Exception` clause and re-wrapped with the generic prefix
`"Error al procesar el archivo: "`. -/
def analyzerInit (r : ReadCsvResult) : Except String Df :=
  match r with
  | .unicodeDecodeError m =>
    .error ("Error de codificación del archivo: " ++ m ++
      ". Intenta guardar el CSV con codificación UTF-8")
  | .emptyDataError => .error "El archivo CSV está vacío"
  | .parserError m =>
    .error ("Error al parsear el archivo CSV: " ++ m ++
      ". Verifica que el formato sea correcto")
  | .ok df =>
    if df.isEmpty then
      .error ("Error al procesar el archivo: " ++
        "El archivo CSV está vacío o no contiene datos válidos")
    else .ok df

/-- The full report returned by `analyze_complete`: either every metric
key together with `analysis_status = "success"`, or only
`analysis_status = "error"` with the exception message — the type rules
out partial reports. -/
inductive Report where
  | success (basic_info : BasicInfo) (missing_data : MissingReport)
      (duplicates : DupReport) (data_quality : QualityReport)
      (outliers : OutlierReport) (correlation_matrix : List CorrEntry)
      (column_statistics : List (String × ColStat))
      (recommendations : Recommendations)
  | error (error_message : String)
deriving DecidableEq, Repr

/-- The first exception message of the eight metric steps, in the order
they run inside the `try` block of `analyze_complete` (each step is
`Except`-valued to model that a Python step may raise). -/
def firstFailure (s1 : Except String BasicInfo) (s2 : Except String MissingReport)
    (s3 : Except String DupReport) (s4 : Except String QualityReport)
    (s5 : Except String OutlierReport) (s6 : Except String (List CorrEntry))
    (s7 : Except String (List (String × ColStat)))
    (s8 : Except String Recommendations) : Option String :=
  match s1, s2, s3, s4, s5, s6, s7, s8 with
  | .error e, _, _, _, _, _, _, _ => some e
  | _, .error e, _, _, _, _, _, _ => some e
  | _, _, .error e, _, _, _, _, _ => some e
  | _, _, _, .error e, _, _, _, _ => some e
  | _, _, _, _, .error e, _, _, _ => some e
  | _, _, _, _, _, .error e, _, _ => some e
  | _, _, _, _, _, _, .error e, _ => some e
  | _, _, _, _, _, _, _, .error e => some e
  | _, _, _, _, _, _, _, _ => none

/-- The `try/except` of `analyze_complete` over the eight step outcomes:
the steps run in order, the first exception aborts the remaining steps
and produces the error report with that exception's message verbatim;
if none raises, the success report assembles all eight results. -/
def assembleReport (s1 : Except String BasicInfo) (s2 : Except String MissingReport)
    (s3 : Except String DupReport) (s4 : Except String QualityReport)
    (s5 : Except String OutlierReport) (s6 : Except String (List CorrEntry))
    (s7 : Except String (List (String × ColStat)))
    (s8 : Except String Recommendations) : Report :=
  match s1 with
  | .error e => .error e
  | .ok b1 =>
    match s2 with
    | .error e => .error e
    | .ok b2 =>
      match s3 with
      | .error e => .error e
      | .ok b3 =>
        match s4 with
        | .error e => .error e
        | .ok b4 =>
          match s5 with
          | .error e => .error e
          | .ok b5 =>
            match s6 with
            | .error e => .error e
            | .ok b6 =>
              match s7 with
              | .error e => .error e
              | .ok b7 =>
                match s8 with
                | .error e => .error e
                | .ok b8 => .success b1 b2 b3 b4 b5 b6 b7 b8

/-- `DatasetAnalyzer.analyze_complete` on a loaded frame; in the
embedding every metric step is a total function, so each step outcome is
`ok` and the success branch of the assembler is taken. -/
def analyze_complete (df : Df) : Report :=
  assembleReport
    (.ok (get_basic_info df)) (.ok (analyze_missing_data df))
    (.ok (analyze_duplicates df)) (.ok (calculate_data_quality df))
    (.ok (detect_outliers df)) (.ok (calculate_correlations df))
    (.ok (get_column_statistics df)) (.ok (generate_recommendations df))

/-- The analyzer's instance state: the working frame `self.df` and the
reference copy `self.original_df` made at load time. -/
structure AnalyzerState where
  df : Df
  original_df : Df
deriving DecidableEq, Repr

/-- The state set up by `__init__` on a successful load:
`self.original_df = self.df.copy()`. -/
def initState (df : Df) : AnalyzerState :=
  { df := df, original_df := df }

/-- The public methods of `DatasetAnalyzer` that read the loaded frame. -/
inductive Method where
  | basicInfo
  | missingData
  | duplicates
  | dataQuality
  | outliers
  | correlations
  | columnStatistics
  | recommendations
  | complete
deriving DecidableEq, Repr

/-- The result value of one method call. -/
inductive MethodResult where
  | basic (b : BasicInfo)
  | missing (m : MissingReport)
  | dup (d : DupReport)
  | quality (q : QualityReport)
  | outlier (o : OutlierReport)
  | corr (c : List CorrEntry)
  | colStats (s : List (String × ColStat))
  | recs (r : Recommendations)
  | report (r : Report)
deriving Repr

/-- One method call on the analyzer state.  Every branch returns the
state unchanged *by translation from the source*: no method of
`DatasetAnalyzer` assigns to `self.df` or `self.original_df`, and every
pandas operation used (`isnull`, `duplicated`, `quantile`, `corr`,
`value_counts`, boolean masking, `select_dtypes`, ...) returns a fresh
object instead of mutating the frame. -/
def runMethod : Method → AnalyzerState → MethodResult × AnalyzerState
  | .basicInfo, s => (.basic (get_basic_info s.df), s)
  | .missingData, s => (.missing (analyze_missing_data s.df), s)
  | .duplicates, s => (.dup (analyze_duplicates s.df), s)
  | .dataQuality, s => (.quality (calculate_data_quality s.df), s)
  | .outliers, s => (.outlier (detect_outliers s.df), s)
  | .correlations, s => (.corr (calculate_correlations s.df), s)
  | .columnStatistics, s => (.colStats (get_column_statistics s.df), s)
  | .recommendations, s => (.recs (generate_recommendations s.df), s)
  | .complete, s => (.report (analyze_complete s.df), s)

/-- The state after an arbitrary sequence of method calls. -/
def runAll (ms : List Method) (s : AnalyzerState) : AnalyzerState :=
  ms.foldl (fun st m => (runMethod m st).2) s

/-- A header-only CSV parse result: two named columns, zero rows. -/
def headerOnlyDf : Df :=
  ⟨[⟨"a", []⟩, ⟨"b", []⟩]⟩

/-- The single-column frame `[1, 2, 3, 4, 5, 100]` of spec §8. -/
def dfOutlierExample : Df :=
  ⟨[⟨"valores", [.num 1, .num 2, .num 3, .num 4, .num 5, .num 100]⟩]⟩

/-- A tiny loaded frame used to instantiate hypothesis-carrying
theorems. -/
def dfTiny : Df :=
  ⟨[⟨"a", [.num 1, .num 2]⟩]⟩

/-- A frame with 50 % missing cells and 2 duplicated rows. -/
def dfMissingAndDup : Df :=
  ⟨[⟨"a", [.null, .null, .num 1, .num 1]⟩]⟩

/-- One null cell among 20001: the true missing percentage is
100/20001 ≈ 0.005 %, which `round(·, 2)` collapses to 0.0. -/
def dfOneNullManyRows : Df :=
  ⟨[⟨"a", .null :: List.replicate 20000 (.num 1)⟩]⟩

/-- 20001 fully identical rows: 20000 are flagged duplicates and the
reported percentage 100·20000/20001 = 99.995…% rounds up to 100.0. -/
def dfAllRowsEqual : Df :=
  ⟨[⟨"a", List.replicate 20001 (.num 1)⟩]⟩

/-- First column of the boundary example: values `[-3, -1, 1, 3]`. -/
def colX : Col := ⟨"x", [.num (-3), .num (-1), .num 1, .num 3]⟩

/-- Second column of the boundary example, chosen as
`y = 10947·x + 34804·e` with `e = (-1, 3, -3, 1)` orthogonal to `x`, so
that the Pearson correlation is exactly `10947/36485 ≈ 0.3000411`:
strictly above the 0.3 filter threshold, but rounding to 0.300. -/
def colY : Col := ⟨"y", [.num (-67645), .num 93465, .num (-93465), .num 67645]⟩

/-- A frame whose single numeric pair has correlation `10947/36485`. -/
def dfCorrBoundary : Df := ⟨[colX, colY]⟩

/-- A small categorical column: "x" twice (first seen at position 0),
"y" once, one null. -/
def colCat : Col := ⟨"c", [.str "x", .str "y", .str "x", .null]⟩

/-- Membership is preserved by stable insertion. -/
theorem mem_insDesc {α : Type} (key : α → ℚ) (x : α) (l : List α) (a : α) :
    a ∈ insDesc key x l ↔ a = x ∨ a ∈ l := by
  induction l with
  | nil => simp [insDesc]
  | cons b t ih =>
    by_cases h : key b ≤ key x
    · simp [insDesc, h]
    · simp only [insDesc, if_neg h, List.mem_cons, ih]
      tauto

/-- Membership is preserved by the stable sort. -/
theorem mem_isortDesc {α : Type} (key : α → ℚ) (l : List α) (a : α) :
    a ∈ isortDesc key l ↔ a ∈ l := by
  induction l with
  | nil => simp [isortDesc]
  | cons x xs ih => simp [isortDesc, mem_insDesc, ih]

/-- Stable insertion into a descending-sorted list keeps it sorted. -/
theorem pairwise_insDesc {α : Type} (key : α → ℚ) (x : α) (l : List α)
    (h : l.Pairwise (fun a b => key b ≤ key a)) :
    (insDesc key x l).Pairwise (fun a b => key b ≤ key a) := by
  induction l with
  | nil => simp [insDesc]
  | cons b t ih =>
    rw [List.pairwise_cons] at h
    by_cases hbx : key b ≤ key x
    · rw [insDesc, if_pos hbx, List.pairwise_cons]
      refine ⟨?_, List.pairwise_cons.mpr h⟩
      intro z hz
      rcases List.mem_cons.mp hz with hz | hz
      · exact hz ▸ hbx
      · exact le_trans (h.1 z hz) hbx
    · rw [insDesc, if_neg hbx, List.pairwise_cons]
      refine ⟨?_, ih h.2⟩
      intro z hz
      rcases (mem_insDesc key x t z).mp hz with hz | hz
      · exact hz ▸ le_of_lt (lt_of_not_le hbx)
      · exact h.1 z hz

/-- The stable sort output is sorted descending by the key. -/
theorem pairwise_isortDesc {α : Type} (key : α → ℚ) (l : List α) :
    (isortDesc key l).Pairwise (fun a b => key b ≤ key a) := by
  induction l with
  | nil => simp [isortDesc]
  | cons x xs ih => exact pairwise_insDesc key x (isortDesc key xs) ih

/-- Stability of the insertion step, expressed through key-level filters:
inserting `x` in front or at its sorted position leaves the sequence of
elements of any fixed key unchanged. -/
theorem filter_insDesc {α : Type} (key : α → ℚ) (k : ℚ) (x : α) (l : List α) :
    (insDesc key x l).filter (fun e => decide (key e = k)) =
      (x :: l).filter (fun e => decide (key e = k)) := by
  induction l with
  | nil => rfl
  | cons b t ih =>
    by_cases hbx : key b ≤ key x
    · rw [insDesc, if_pos hbx]
    · rw [insDesc, if_neg hbx]
      by_cases hx : key x = k
      · by_cases hb : key b = k
        · exact absurd (hx ▸ hb ▸ le_refl k) hbx
        · simp [List.filter_cons, hb, hx, ih]
      · by_cases hb : key b = k
        · simp [List.filter_cons, hb, hx, ih]
        · simp [List.filter_cons, hb, hx, ih]

/-- Stability of the stable sort: for every key value, the subsequence
of elements carrying that key is exactly the one of the input, in input
order (ties keep first-encountered order). -/
theorem filter_isortDesc {α : Type} (key : α → ℚ) (k : ℚ) (l : List α) :
    (isortDesc key l).filter (fun e => decide (key e = k)) =
      l.filter (fun e => decide (key e = k)) := by
  induction l with
  | nil => rfl
  | cons x xs ih =>
    rw [isortDesc, filter_insDesc]
    by_cases hx : key x = k
    · simp [List.filter_cons, hx, ih]
    · simp [List.filter_cons, hx, ih]

/-- Inserting an element that is `R`-below a sorted list refines the
descending order with tie-breaking by `R`. -/
theorem pairwise_insDesc_ties {α : Type} (key : α → ℚ) (R : α → α → Prop)
    (x : α) (m : List α)
    (hm : m.Pairwise (fun a b => key b < key a ∨ (key a = key b ∧ R a b)))
    (hx : ∀ y ∈ m, R x y) :
    (insDesc key x m).Pairwise
      (fun a b => key b < key a ∨ (key a = key b ∧ R a b)) := by
  induction m with
  | nil => simp [insDesc]
  | cons b t ih =>
    rw [List.pairwise_cons] at hm
    by_cases hbx : key b ≤ key x
    · rw [insDesc, if_pos hbx, List.pairwise_cons]
      refine ⟨?_, List.pairwise_cons.mpr hm⟩
      intro z hz
      have hzle : key z ≤ key x := by
        rcases List.mem_cons.mp hz with hz' | hz'
        · exact hz' ▸ hbx
        · rcases hm.1 z hz' with h | h
          · exact le_trans (le_of_lt h) hbx
          · exact le_trans (le_of_eq h.1.symm) hbx
      rcases lt_or_eq_of_le hzle with hlt | heq
      · exact Or.inl hlt
      · exact Or.inr ⟨heq.symm, hx z hz⟩
    · rw [insDesc, if_neg hbx, List.pairwise_cons]
      refine ⟨?_, ih hm.2 (fun y hy => hx y (List.mem_cons_of_mem b hy))⟩
      intro z hz
      rcases (mem_insDesc key x t z).mp hz with hz' | hz'
      · exact Or.inl (hz' ▸ lt_of_not_le hbx)
      · exact hm.1 z hz'

/-- If the input is ordered by `R`, the stable sort is ordered by
descending key with `R` breaking ties. -/
theorem pairwise_isortDesc_ties {α : Type} (key : α → ℚ) (R : α → α → Prop)
    (l : List α) (h : l.Pairwise R) :
    (isortDesc key l).Pairwise
      (fun a b => key b < key a ∨ (key a = key b ∧ R a b)) := by
  induction l with
  | nil => simp [isortDesc]
  | cons x xs ih =>
    rw [List.pairwise_cons] at h
    refine pairwise_insDesc_ties key R x (isortDesc key xs) (ih h.2) ?_
    intro y hy
    exact h.1 y ((mem_isortDesc key xs y).mp hy)

/-- `pyRound` never rounds below the floor. -/
theorem pyRound_ge_floor (q : ℚ) : ⌊q⌋ ≤ pyRound q := by
  unfold pyRound
  by_cases h : q - ⌊q⌋ = 1/2
  · by_cases he : ⌊q⌋ % 2 = 0
    · simp [h, he]
    · simp only [h, he, if_true, if_false, if_pos, if_neg]
      omega
  · simp only [h, if_neg]
    exact Int.floor_le_floor (by linarith)

/-- `pyRound` never rounds above the floor plus one. -/
theorem pyRound_le_floor_add_one (q : ℚ) : pyRound q ≤ ⌊q⌋ + 1 := by
  unfold pyRound
  by_cases h : q - ⌊q⌋ = 1/2
  · by_cases he : ⌊q⌋ % 2 = 0
    · simp only [h, he, if_pos]
      omega
    · simp only [h, he, if_pos, if_neg]
      omega
  · simp only [h, if_neg]
    have : q + 1/2 < (⌊q⌋ : ℚ) + 1 + 1 := by
      have := Int.lt_floor_add_one q
      linarith
    have h2 := Int.floor_le_floor (le_of_lt this)
    rw [show ((⌊q⌋ : ℚ) + 1 + 1) = ((⌊q⌋ + 1 + 1 : ℤ) : ℚ) by push_cast; ring] at h2
    rw [Int.floor_intCast] at h2
    have h3 : ⌊q + 1/2⌋ < ⌊q⌋ + 1 + 1 := by
      rcases lt_or_eq_of_le h2 with hlt | heq
      · omega
      · exfalso
        have : (⌊q + 1/2⌋ : ℚ) ≤ q + 1/2 := Int.floor_le _
        rw [heq] at this
        push_cast at this
        have hq : (⌊q⌋ : ℚ) ≤ q := Int.floor_le q
        have := Int.lt_floor_add_one q
        linarith
    omega

/-- `pyRound` of a nonnegative rational is nonnegative. -/
theorem pyRound_nonneg (q : ℚ) (h : 0 ≤ q) : 0 ≤ pyRound q := by
  have := pyRound_ge_floor q
  have h0 : (0 : ℤ) ≤ ⌊q⌋ := Int.floor_nonneg.mpr h
  omega

/-- `pyRound` of an integer is that integer. -/
theorem pyRound_intCast (n : ℤ) : pyRound ((n : ℚ)) = n := by
  unfold pyRound
  rw [Int.floor_intCast]
  have hcond : ¬ ((n : ℚ) - (n : ℤ) = 1/2) := by
    rw [Int.cast_inj.mpr rfl]
    norm_num
  rw [if_neg (by push_cast at hcond ⊢; exact hcond)]
  have hf : ⌊(n : ℚ) + 1/2⌋ = n := by
    rw [Int.floor_eq_iff]
    constructor
    · linarith
    · push_cast
      linarith
  exact hf

/-- `pyRound` never exceeds an integer bound of its argument. -/
theorem pyRound_le_of_le (q : ℚ) (n : ℤ) (h : q ≤ (n : ℚ)) : pyRound q ≤ n := by
  have h1 := pyRound_le_floor_add_one q
  have hfn : ⌊q⌋ ≤ n := by
    have := Int.floor_le_floor h
    rwa [Int.floor_intCast] at this
  rcases lt_or_eq_of_le hfn with hlt | heq
  · omega
  · have hq : q = (n : ℚ) := by
      refine le_antisymm h ?_
      rw [← heq]
      exact Int.floor_le q
    rw [hq, pyRound_intCast]

/-- `round(·, 2)` of a nonnegative rational is nonnegative. -/
theorem round2_nonneg (q : ℚ) (h : 0 ≤ q) : 0 ≤ round2 q := by
  unfold round2
  have := pyRound_nonneg (q * 100) (by positivity)
  positivity

/-- `round(·, 2)` respects an upper bound of 100. -/
theorem round2_le_100 (q : ℚ) (h : q ≤ 100) : round2 q ≤ 100 := by
  unfold round2
  have h1 : pyRound (q * 100) ≤ (10000 : ℤ) := by
    apply pyRound_le_of_le
    push_cast
    linarith
  rw [div_le_iff (by norm_num)]
  calc ((pyRound (q * 100) : ℚ)) ≤ ((10000 : ℤ) : ℚ) := by exact_mod_cast h1
  _ = 100 * 100 := by norm_num

/-- `round(0, 2) = 0`. -/
theorem round2_zero : round2 0 = 0 := by
  unfold round2
  rw [show (0 : ℚ) * 100 = ((0 : ℤ) : ℚ) by norm_num, pyRound_intCast]
  norm_num

/-- Every entry of the occurrence tally carries a first-occurrence index
at least the running offset. -/
theorem tallyFrom_idx_ge (l : List Cell) :
    ∀ i, ∀ t ∈ tallyFrom i l, i ≤ t.2.2 := by
  induction l with
  | nil => intro i t ht; simp [tallyFrom] at ht
  | cons c rest ih =>
    intro i t ht
    rw [tallyFrom] at ht
    by_cases hnull : c.isNull
    · rw [if_pos hnull] at ht
      exact le_trans (Nat.le_succ i) (ih (i + 1) t ht)
    · rw [if_neg hnull] at ht
      rcases List.mem_cons.mp ht with h | h
      · rw [h]
      · have := List.mem_of_mem_filter h
        exact le_trans (Nat.le_succ i) (ih (i + 1) t this)

/-- The occurrence tally lists values in strictly increasing order of
first occurrence (= first-encountered order). -/
theorem tallyFrom_pairwise_idx (l : List Cell) :
    ∀ i, (tallyFrom i l).Pairwise (fun a b => a.2.2 < b.2.2) := by
  induction l with
  | nil => intro i; simp [tallyFrom]
  | cons c rest ih =>
    intro i
    rw [tallyFrom]
    by_cases hnull : c.isNull
    · rw [if_pos hnull]
      exact ih (i + 1)
    · rw [if_neg hnull]
      rw [List.pairwise_cons]
      constructor
      · intro t ht
        have := tallyFrom_idx_ge rest (i + 1) t (List.mem_of_mem_filter ht)
        simpa using lt_of_lt_of_le (Nat.lt_succ_self i) this
      · exact List.Pairwise.filter _ (ih (i + 1))

/-- A duplicate-flag count and a new-distinct count over the same scan
partition the scanned list. -/
theorem dupCount_add_distinctCount {α : Type} [DecidableEq α]
    (l : List α) : ∀ seen : List α, dupCount seen l + distinctCount seen l = l.length := by
  induction l with
  | nil => intro seen; simp [dupCount, distinctCount]
  | cons r rs ih =>
    intro seen
    rw [dupCount, distinctCount]
    by_cases h : r ∈ seen
    · simp only [h, if_pos]
      have := ih (r :: seen)
      simp only [List.length_cons]
      omega
    · simp only [h, if_neg, not_false_iff]
      have := ih (r :: seen)
      simp only [List.length_cons]
      omega

/-- Scanning a nonempty list from an empty `seen` finds at least one new
distinct element (the first one). -/
theorem distinctCount_pos {α : Type} [DecidableEq α] (r : α) (rs : List α) :
    1 ≤ distinctCount [] (r :: rs) := by
  rw [distinctCount]
  simp

/-- Every element of a replicated list already in `seen` is flagged as a
duplicate. -/
theorem dupCount_replicate_mem {α : Type} [DecidableEq α] (r : α) :
    ∀ k : ℕ, ∀ seen : List α, r ∈ seen → dupCount seen (List.replicate k r) = k := by
  intro k
  induction k with
  | zero => intro seen h; simp [List.replicate, dupCount]
  | succ n ih =>
    intro seen h
    rw [List.replicate_succ, dupCount, if_pos h, ih (r :: seen) (List.mem_cons_of_mem r h)]
    omega

/-- The row list has exactly `nRows` rows. -/
theorem length_rowsList (df : Df) : df.rowsList.length = df.nRows := by
  rw [Df.rowsList, List.length_map, List.length_range]

/-- `countP` over a replicated list. -/
theorem countP_replicate {α : Type} (p : α → Bool) (a : α) :
    ∀ n : ℕ, (List.replicate n a).countP p = if p a then n else 0 := by
  intro n
  induction n with
  | zero => simp [List.replicate]
  | succ m ih =>
    rw [List.replicate_succ, List.countP_cons, ih]
    by_cases h : p a
    · simp [h]
    · simp [h]

/-- C1 (code bug witness): a parse succeeding with zero rows (header-only
document) does NOT fail with the dedicated empty-dataset error: the
`ValueError` raised for it inside the `try` block is re-caught by
`except Exception` and wrapped in the generic
`"Error al procesar el archivo: ..."` message, while genuinely empty
content (`EmptyDataError`) does get the dedicated message.  The claim
(and spec §4.1) says both cases surface the dedicated Empty error. -/
theorem c1_empty_frame_gets_wrapped_error :
    analyzerInit (.ok headerOnlyDf) =
      .error "Error al procesar el archivo: El archivo CSV está vacío o no contiene datos válidos"
    ∧ analyzerInit .emptyDataError = .error "El archivo CSV está vacío"
    ∧ headerOnlyDf.nRows = 0 ∧ headerOnlyDf.nCols = 2 := by
  refine ⟨?_, rfl, rfl, rfl⟩
  rw [analyzerInit, if_pos (by decide)]
  simp only [Except.error.injEq]
  decide

/-- `round(85.0, 1) = 85.0`. -/
theorem round1_85 : round1 85 = 85 := by
  unfold round1
  rw [show (85 : ℚ) * 10 = ((850 : ℤ) : ℚ) by norm_num, pyRound_intCast]
  norm_num

/-- C3: the consistency sub-score is the constant 85.0 for every frame,
hence the `consistency < 80` advisory ("Consistencia baja") is dead code:
no input ever produces it. -/
theorem c3_consistency_constant_85 (df : Df) :
    (calculate_data_quality df).consistency = 85
    ∧ ∀ r ∈ (generate_recommendations df).moderate, r.issue ≠ "Consistencia baja" := by
  have hcons : (calculate_data_quality df).consistency = 85 := by
    show round1 85 = 85
    exact round1_85
  refine ⟨hcons, ?_⟩
  intro r hr
  have hmod : (generate_recommendations df).moderate =
      (if (detect_outliers df).total_outlier_percentage > 5
        then [outlierRec df] else []) ++
      (if (calculate_data_quality df).consistency < 80
        then [consistencyRec df] else []) := rfl
  rw [hmod, hcons, if_neg (show ¬((85:ℚ) < 80) by norm_num)] at hr
  rw [List.append_nil] at hr
  by_cases h5 : (detect_outliers df).total_outlier_percentage > 5
  · rw [if_pos h5] at hr
    rcases List.mem_singleton.mp hr with h
    rw [h]
    show "Valores atípicos detectados" ≠ "Consistencia baja"
    decide
  · rw [if_neg h5] at hr
    exact absurd hr (List.not_mem_nil r)

/-- Evaluation of `detect_outliers` on the §8 example frame (shared by
the outlier example and by witness instantiations that need a nonempty
moderate tier). -/
theorem detect_outliers_example_eval :
    detect_outliers dfOutlierExample = ⟨[⟨"valores", 1, 1667/100⟩], 1667/100⟩ := by
  have h1 : quantile [1, 2, 3, 4, 5, 100] (1/4) = 9/4 := by
    norm_num [quantile, isortAsc, insAsc]
  have h3 : quantile [1, 2, 3, 4, 5, 100] (3/4) = 19/4 := by
    norm_num [quantile, isortAsc, insAsc]
    simp
    norm_num
  have hc : outlierCount ⟨"valores", [.num 1, .num 2, .num 3, .num 4, .num 5, .num 100]⟩ = 1 := by
    rw [outlierCount, show Col.nonNullNum ⟨"valores",
      [.num 1, .num 2, .num 3, .num 4, .num 5, .num 100]⟩ =
      [1, 2, 3, 4, 5, 100] from by decide, h1, h3]
    norm_num
  rw [detect_outliers]
  rw [show (Df.cols dfOutlierExample).filter Col.isNumeric =
    [⟨"valores", [.num 1, .num 2, .num 3, .num 4, .num 5, .num 100]⟩] from by decide]
  rw [List.filterMap]
  simp only [hc]
  norm_num [Df.nRows, round2, pyRound, dfOutlierExample]

/-- C6: on the column `[1,2,3,4,5,100]`, Q1 = 2.25, Q3 = 4.75,
IQR = 2.5, bounds = [-1.5, 8.5], and `detect_outliers` reports exactly
one outlier (the value 100) for that column, at 16.67 % of the 6 rows. -/
theorem c6_outlier_example :
    quantile [1, 2, 3, 4, 5, 100] (1/4) = 9/4
    ∧ quantile [1, 2, 3, 4, 5, 100] (3/4) = 19/4
    ∧ quantile [1, 2, 3, 4, 5, 100] (3/4) - quantile [1, 2, 3, 4, 5, 100] (1/4) = 5/2
    ∧ quantile [1, 2, 3, 4, 5, 100] (1/4) -
        3/2 * (quantile [1, 2, 3, 4, 5, 100] (3/4) - quantile [1, 2, 3, 4, 5, 100] (1/4)) = -3/2
    ∧ quantile [1, 2, 3, 4, 5, 100] (3/4) +
        3/2 * (quantile [1, 2, 3, 4, 5, 100] (3/4) - quantile [1, 2, 3, 4, 5, 100] (1/4)) = 17/2
    ∧ detect_outliers dfOutlierExample = ⟨[⟨"valores", 1, 1667/100⟩], 1667/100⟩ := by
  have h1 : quantile [1, 2, 3, 4, 5, 100] (1/4) = 9/4 := by
    norm_num [quantile, isortAsc, insAsc]
  have h3 : quantile [1, 2, 3, 4, 5, 100] (3/4) = 19/4 := by
    norm_num [quantile, isortAsc, insAsc]
    simp
    norm_num
  exact ⟨h1, h3, by rw [h1, h3]; norm_num, by rw [h1, h3]; norm_num,
    by rw [h1, h3]; norm_num, detect_outliers_example_eval⟩

/-- C10: no metric method mutates the analyzer state: after any sequence
of method calls starting from the freshly loaded state, the working
frame equals the initial frame and still equals the reference copy. -/
theorem c10_methods_leave_state_unchanged (ms : List Method) (df : Df) :
    runAll ms (initState df) = initState df
    ∧ (runAll ms (initState df)).df = (runAll ms (initState df)).original_df := by
  have hrun : ∀ m : Method, ∀ s : AnalyzerState, (runMethod m s).2 = s := by
    intro m s
    cases m <;> rfl
  have hall : ∀ l : List Method, ∀ s : AnalyzerState, runAll l s = s := by
    intro l
    induction l with
    | nil => intro s; rfl
    | cons m t ih =>
      intro s
      rw [runAll, List.foldl_cons, hrun m s]
      exact ih s
  refine ⟨hall ms (initState df), ?_⟩
  rw [hall ms (initState df)]
  rfl

/-- C5: `analyze_complete` is all-or-nothing.  If every step succeeds,
the report is `success` carrying all eight metric results; if any step
raises, the report is exactly the error report carrying the first
exception's message verbatim (no metric keys exist on that constructor);
the assembler itself never propagates an exception (it is a total
function into `Report`).  In the embedding every metric step is total,
so `analyze_complete` always takes the success branch, with all eight
keys (third conjunct). -/
theorem c5_analyze_complete_all_or_nothing
    (s1 : Except String BasicInfo) (s2 : Except String MissingReport)
    (s3 : Except String DupReport) (s4 : Except String QualityReport)
    (s5 : Except String OutlierReport) (s6 : Except String (List CorrEntry))
    (s7 : Except String (List (String × ColStat)))
    (s8 : Except String Recommendations) :
    (∀ b1 b2 b3 b4 b5 b6 b7 b8,
      s1 = .ok b1 → s2 = .ok b2 → s3 = .ok b3 → s4 = .ok b4 →
      s5 = .ok b5 → s6 = .ok b6 → s7 = .ok b7 → s8 = .ok b8 →
      assembleReport s1 s2 s3 s4 s5 s6 s7 s8 = .success b1 b2 b3 b4 b5 b6 b7 b8)
    ∧ (∀ e, firstFailure s1 s2 s3 s4 s5 s6 s7 s8 = some e →
        assembleReport s1 s2 s3 s4 s5 s6 s7 s8 = .error e)
    ∧ (∀ df : Df, analyze_complete df =
        .success (get_basic_info df) (analyze_missing_data df) (analyze_duplicates df)
          (calculate_data_quality df) (detect_outliers df) (calculate_correlations df)
          (get_column_statistics df) (generate_recommendations df)) := by
  refine ⟨?_, ?_, fun df => rfl⟩
  · intro b1 b2 b3 b4 b5 b6 b7 b8 h1 h2 h3 h4 h5 h6 h7 h8
    subst h1; subst h2; subst h3; subst h4; subst h5; subst h6; subst h7; subst h8
    rfl
  · intro e he
    cases s1 with
    | error e1 => simp [firstFailure] at he; rw [assembleReport, he]
    | ok b1 =>
      cases s2 with
      | error e2 => simp [firstFailure] at he; rw [assembleReport, he]
      | ok b2 =>
        cases s3 with
        | error e3 => simp [firstFailure] at he; rw [assembleReport, he]
        | ok b3 =>
          cases s4 with
          | error e4 => simp [firstFailure] at he; rw [assembleReport, he]
          | ok b4 =>
            cases s5 with
            | error e5 => simp [firstFailure] at he; rw [assembleReport, he]
            | ok b5 =>
              cases s6 with
              | error e6 => simp [firstFailure] at he; rw [assembleReport, he]
              | ok b6 =>
                cases s7 with
                | error e7 => simp [firstFailure] at he; rw [assembleReport, he]
                | ok b7 =>
                  cases s8 with
                  | error e8 => simp [firstFailure] at he; rw [assembleReport, he]
                  | ok b8 => simp [firstFailure] at he

/-- Witness for C5: at concrete step outcomes, the all-ok instantiation
produces the full success report and an injected first-step exception
produces exactly its message. -/
theorem c5_analyze_complete_all_or_nothing_witness :
    assembleReport (.ok (get_basic_info dfTiny)) (.ok (analyze_missing_data dfTiny))
      (.ok (analyze_duplicates dfTiny)) (.ok (calculate_data_quality dfTiny))
      (.ok (detect_outliers dfTiny)) (.ok (calculate_correlations dfTiny))
      (.ok (get_column_statistics dfTiny)) (.ok (generate_recommendations dfTiny))
      = .success (get_basic_info dfTiny) (analyze_missing_data dfTiny)
          (analyze_duplicates dfTiny) (calculate_data_quality dfTiny)
          (detect_outliers dfTiny) (calculate_correlations dfTiny)
          (get_column_statistics dfTiny) (generate_recommendations dfTiny)
    ∧ assembleReport (Except.error "boom" : Except String BasicInfo)
        (.ok (analyze_missing_data dfTiny)) (.ok (analyze_duplicates dfTiny))
        (.ok (calculate_data_quality dfTiny)) (.ok (detect_outliers dfTiny))
        (.ok (calculate_correlations dfTiny)) (.ok (get_column_statistics dfTiny))
        (.ok (generate_recommendations dfTiny)) = .error "boom" := by
  constructor
  · exact (c5_analyze_complete_all_or_nothing _ _ _ _ _ _ _ _).1 _ _ _ _ _ _ _ _
      rfl rfl rfl rfl rfl rfl rfl rfl
  · exact (c5_analyze_complete_all_or_nothing _ _ _ _ _ _ _ _).2.1 "boom" rfl

/-- C7: the recommendation rules fire independently and append in source
order: whenever the missing-value rule (`total_missing_percentage > 10`)
and the duplicate rule (`total_duplicates > 0`) both hold, the critical
tier is exactly the missing-values advisory followed by the duplicates
advisory (hence at least two critical recommendations, in that order).
The result always has exactly the tiers critical/moderate/optional: the
`Recommendations` structure type admits no others. -/
theorem c7_critical_recommendations_order (df : Df)
    (h1 : (analyze_missing_data df).total_missing_percentage > 10)
    (h2 : (analyze_duplicates df).total_duplicates > 0) :
    (generate_recommendations df).critical = [missingRec df, dupRec df]
    ∧ 2 ≤ (generate_recommendations df).critical.length := by
  have hc : (generate_recommendations df).critical =
      (if (analyze_missing_data df).total_missing_percentage > 10
        then [missingRec df] else []) ++
      (if (analyze_duplicates df).total_duplicates > 0 then [dupRec df] else []) := rfl
  rw [hc, if_pos h1, if_pos h2]
  exact ⟨rfl, by rfl⟩

/-- Witness for C7: on `dfMissingAndDup` both hypotheses hold and the
critical tier is the two advisories in source order. -/
theorem c7_critical_recommendations_order_witness :
    (generate_recommendations dfMissingAndDup).critical =
      [missingRec dfMissingAndDup, dupRec dfMissingAndDup]
    ∧ 2 ≤ (generate_recommendations dfMissingAndDup).critical.length :=
  c7_critical_recommendations_order dfMissingAndDup
    (by
      have hm : (analyze_missing_data dfMissingAndDup).total_missing_percentage =
          round2 ((2 : ℚ) / ((4 : ℚ) * (1 : ℚ)) * 100) := by
        rw [show (analyze_missing_data dfMissingAndDup).total_missing_percentage =
          round2 ((Df.totalMissing dfMissingAndDup : ℚ) /
            ((Df.nRows dfMissingAndDup : ℚ) * (Df.nCols dfMissingAndDup : ℚ)) * 100) from rfl]
        rw [show Df.totalMissing dfMissingAndDup = 2 from by decide]
        rw [show Df.nRows dfMissingAndDup = 4 from rfl]
        rw [show Df.nCols dfMissingAndDup = 1 from rfl]
        norm_num
      rw [hm]
      norm_num [round2, pyRound])
    (by
      rw [show (analyze_duplicates dfMissingAndDup).total_duplicates =
        Df.totalDuplicates dfMissingAndDup from rfl]
      rw [show Df.totalDuplicates dfMissingAndDup = 2 from by decide]
      norm_num)

/-- A cell is flagged null exactly when it is the null marker. -/
theorem cell_isNull_iff (x : Cell) : x.isNull = true ↔ x = Cell.null := by
  cases x <;> simp [Cell.isNull]

/-- On a well-formed frame the dataset-wide null count is at most the
cell count. -/
theorem totalMissing_le_cells (df : Df) (hwf : df.Wf) :
    df.totalMissing ≤ df.nCols * df.nRows := by
  rw [Df.totalMissing, Df.nCols]
  have : ∀ (cols : List Col), (∀ c ∈ cols, c.cells.length = df.nRows) →
      (cols.map Col.nullCount).sum ≤ cols.length * df.nRows := by
    intro cols
    induction cols with
    | nil => intro _; simp
    | cons c t ih =>
      intro h
      rw [List.map_cons, List.sum_cons, List.length_cons]
      have hc : Col.nullCount c ≤ df.nRows := by
        rw [← h c (List.mem_cons_self c t)]
        exact List.countP_le_length _
      have ht := ih (fun x hx => h x (List.mem_cons_of_mem c hx))
      calc Col.nullCount c + (t.map Col.nullCount).sum
          ≤ df.nRows + t.length * df.nRows := Nat.add_le_add hc ht
        _ = (t.length + 1) * df.nRows := by ring
  exact this df.cols hwf

/-- The dataset-wide null count vanishes exactly when no cell is null. -/
theorem totalMissing_eq_zero_iff (df : Df) :
    df.totalMissing = 0 ↔ ∀ c ∈ df.cols, ∀ x ∈ c.cells, x ≠ Cell.null := by
  rw [Df.totalMissing, List.sum_eq_zero_iff]
  constructor
  · intro h c hc x hx hnull
    have hcount : Col.nullCount c = 0 := by
      have := h (Col.nullCount c) (List.mem_map_of_mem Col.nullCount hc)
      exact this
    rw [Col.nullCount, List.countP_eq_zero] at hcount
    exact hcount x hx (by rw [hnull]; rfl)
  · intro h n hn
    rcases List.mem_map.mp hn with ⟨c, hc, hczero⟩
    rw [← hczero, Col.nullCount, List.countP_eq_zero]
    intro x hx hxnull
    exact h c hc x hx ((cell_isNull_iff x).mp hxnull)

/-- Field equation of `analyze_missing_data` for the overall percentage
(stated at a variable frame so rewriting at a large concrete frame does
not force evaluation). -/
theorem analyze_missing_data_pct (df : Df) :
    (analyze_missing_data df).total_missing_percentage =
      round2 ((df.totalMissing : ℚ) / ((df.nRows : ℚ) * (df.nCols : ℚ)) * 100) := rfl

/-- Field equation of `analyze_missing_data` for the total count. -/
theorem analyze_missing_data_values (df : Df) :
    (analyze_missing_data df).total_missing_values = df.totalMissing := rfl

/-- C4 (amended): the reported `total_missing_percentage` always lies in
[0, 100]; it is 0 whenever no cell is null, and `total_missing_values`
is 0 exactly when no cell is null.  (The claimed converse — a nonzero
null count forces a nonzero *reported* percentage — fails: rounding to
2 decimals can collapse a positive percentage to 0, see the
counterexample.) -/
theorem c4_missing_percentage_bounds (df : Df)
    (hwf : df.Wf) (hr : 0 < df.nRows) (hc : 0 < df.nCols) :
    0 ≤ (analyze_missing_data df).total_missing_percentage
    ∧ (analyze_missing_data df).total_missing_percentage ≤ 100
    ∧ ((analyze_missing_data df).total_missing_values = 0 ↔
        ∀ c ∈ df.cols, ∀ x ∈ c.cells, x ≠ Cell.null)
    ∧ ((analyze_missing_data df).total_missing_values = 0 →
        (analyze_missing_data df).total_missing_percentage = 0) := by
  have hpct := analyze_missing_data_pct df
  have hval := analyze_missing_data_values df
  have hcells : (0 : ℚ) < (df.nRows : ℚ) * (df.nCols : ℚ) := by
    have h1 : (0 : ℚ) < (df.nRows : ℚ) := by exact_mod_cast hr
    have h2 : (0 : ℚ) < (df.nCols : ℚ) := by exact_mod_cast hc
    positivity
  have hfrac0 : 0 ≤ (df.totalMissing : ℚ) / ((df.nRows : ℚ) * (df.nCols : ℚ)) * 100 := by
    positivity
  have hfrac100 : (df.totalMissing : ℚ) / ((df.nRows : ℚ) * (df.nCols : ℚ)) * 100 ≤ 100 := by
    have hle : (df.totalMissing : ℚ) ≤ (df.nRows : ℚ) * (df.nCols : ℚ) := by
      have := totalMissing_le_cells df hwf
      have hcast : (df.totalMissing : ℚ) ≤ ((df.nCols * df.nRows : ℕ) : ℚ) := by
        exact_mod_cast this
      rw [Nat.cast_mul] at hcast
      linarith [hcast]
    rw [div_mul_eq_mul_div, div_le_iff hcells]
    linarith
  refine ⟨hpct ▸ round2_nonneg _ hfrac0, hpct ▸ round2_le_100 _ hfrac100,
    hval ▸ totalMissing_eq_zero_iff df, ?_⟩
  intro h0
  rw [hval] at h0
  rw [hpct, h0]
  rw [show ((0 : ℕ) : ℚ) / ((df.nRows : ℚ) * (df.nCols : ℚ)) * 100 = 0 by
    rw [Nat.cast_zero, zero_div, zero_mul]]
  exact round2_zero

/-- Witness for C4: the hypotheses and bounds instantiate on the tiny
null-free frame. -/
theorem c4_missing_percentage_bounds_witness :
    dfTiny.Wf ∧ 0 < dfTiny.nRows ∧ 0 < dfTiny.nCols
    ∧ (0 ≤ (analyze_missing_data dfTiny).total_missing_percentage
      ∧ (analyze_missing_data dfTiny).total_missing_percentage ≤ 100
      ∧ ((analyze_missing_data dfTiny).total_missing_values = 0 ↔
          ∀ c ∈ dfTiny.cols, ∀ x ∈ c.cells, x ≠ Cell.null)
      ∧ ((analyze_missing_data dfTiny).total_missing_values = 0 →
          (analyze_missing_data dfTiny).total_missing_percentage = 0)) :=
  ⟨by decide, by decide, by decide,
    c4_missing_percentage_bounds dfTiny (by decide) (by decide) (by decide)⟩

/-- C4 (counterexample): on `dfOneNullManyRows` the frame contains a
null cell (`total_missing_values = 1`) yet the reported
`total_missing_percentage` is exactly 0, refuting the claimed
"equals 0 iff no null cells" for the rounded value. -/
theorem c4_rounded_percentage_zero_with_nulls :
    (analyze_missing_data dfOneNullManyRows).total_missing_percentage = 0
    ∧ (analyze_missing_data dfOneNullManyRows).total_missing_values = 1
    ∧ ¬ (∀ c ∈ dfOneNullManyRows.cols, ∀ x ∈ c.cells, x ≠ Cell.null) := by
  have htm : Df.totalMissing dfOneNullManyRows = 1 := by
    rw [Df.totalMissing]
    rw [show (Df.cols dfOneNullManyRows) = [⟨"a", .null :: List.replicate 20000 (.num 1)⟩] from rfl]
    rw [List.map_cons, List.map_nil, List.sum_cons, List.sum_nil]
    rw [Col.nullCount]
    rw [List.countP_cons]
    rw [countP_replicate]
    rfl
  have hrows : Df.nRows dfOneNullManyRows = 20001 := by
    rw [Df.nRows]
    rw [show (Df.cols dfOneNullManyRows) = [⟨"a", .null :: List.replicate 20000 (.num 1)⟩] from rfl]
    rw [List.head?_cons, Option.map_some', Option.getD_some]
    rw [show Col.cells ⟨"a", .null :: List.replicate 20000 (.num 1)⟩ =
      .null :: List.replicate 20000 (.num 1) from rfl]
    rw [List.length_cons, List.length_replicate]
  refine ⟨?_, by rw [analyze_missing_data_values]; exact htm, ?_⟩
  · rw [analyze_missing_data_pct]
    rw [htm, hrows, show Df.nCols dfOneNullManyRows = 1 from rfl]
    norm_num [round2, pyRound]
  · intro hall
    exact hall ⟨"a", .null :: List.replicate 20000 (.num 1)⟩ (List.mem_cons_self _ _)
      Cell.null (List.mem_cons_self _ _) rfl

/-- Indexing a replicated list inside its range yields the repeated
element. -/
theorem getD_replicate {α : Type} (a d : α) :
    ∀ n i : ℕ, i < n → (List.replicate n a).getD i d = a := by
  intro n
  induction n with
  | zero => intro i h; omega
  | succ m ih =>
    intro i h
    rw [List.replicate_succ]
    cases i with
    | zero => rfl
    | succ j =>
      rw [List.getD_cons_succ]
      exact ih j (by omega)

/-- Field equation of `analyze_duplicates` (stated at a variable frame so
that rewriting at a large concrete frame does not force evaluation). -/
theorem analyze_duplicates_total_duplicates (df : Df) :
    (analyze_duplicates df).total_duplicates = df.totalDuplicates := rfl

/-- Field equation of `analyze_duplicates` for the rounded percentage. -/
theorem analyze_duplicates_percentage (df : Df) :
    (analyze_duplicates df).percentage =
      round2 ((df.totalDuplicates : ℚ) / (df.nRows : ℚ) * 100) := rfl

/-- C9 (amended): `analyze_duplicates` counts only the second and later
occurrences of each group of fully identical rows (the duplicate count
and the distinct-row count partition the rows), hence with at least one
row `total_duplicates ≤ row_count - 1` and the *unrounded* duplicate
percentage is strictly below 100.  (The *reported* 2-decimal percentage
can still round up to exactly 100.0, see the counterexample.) -/
theorem c9_duplicate_count_partition (df : Df) :
    df.totalDuplicates + distinctCount [] df.rowsList = df.nRows
    ∧ (1 ≤ df.nRows → (analyze_duplicates df).total_duplicates ≤ df.nRows - 1)
    ∧ (1 ≤ df.nRows →
        ((analyze_duplicates df).total_duplicates : ℚ) / (df.nRows : ℚ) * 100 < 100) := by
  have hpart : df.totalDuplicates + distinctCount [] df.rowsList = df.nRows := by
    rw [Df.totalDuplicates, dupCount_add_distinctCount, length_rowsList]
  have hlt : 1 ≤ df.nRows → df.totalDuplicates ≤ df.nRows - 1 := by
    intro h1
    have hne : df.rowsList ≠ [] := by
      intro hnil
      have := length_rowsList df
      rw [hnil] at this
      simp at this
      omega
    rcases List.exists_cons_of_ne_nil hne with ⟨r, rs, hr⟩
    have hd : 1 ≤ distinctCount [] df.rowsList := hr ▸ distinctCount_pos r rs
    omega
  refine ⟨hpart, fun h1 => by rw [analyze_duplicates_total_duplicates]; exact hlt h1,
    fun h1 => ?_⟩
  have h2 := hlt h1
  have hlt2 : df.totalDuplicates < df.nRows := by omega
  have hpos : (0 : ℚ) < (df.nRows : ℚ) := by exact_mod_cast h1
  rw [analyze_duplicates_total_duplicates, div_mul_eq_mul_div, div_lt_iff hpos]
  have : (df.totalDuplicates : ℚ) < (df.nRows : ℚ) := by exact_mod_cast hlt2
  linarith

/-- Witness for C9: on the tiny duplicate-free frame the amended bounds
instantiate. -/
theorem c9_duplicate_count_partition_witness :
    1 ≤ dfTiny.nRows
    ∧ (analyze_duplicates dfTiny).total_duplicates ≤ dfTiny.nRows - 1
    ∧ ((analyze_duplicates dfTiny).total_duplicates : ℚ) / (dfTiny.nRows : ℚ) * 100 < 100 :=
  ⟨by decide, (c9_duplicate_count_partition dfTiny).2.1 (by decide),
    (c9_duplicate_count_partition dfTiny).2.2 (by decide)⟩

/-- C9 (counterexample): on `dfAllRowsEqual` the *reported* duplicate
percentage equals exactly 100, refuting the claimed strict bound for the
rounded value (the duplicate count itself still respects
`total_duplicates = row_count - 1`). -/
theorem c9_rounded_percentage_reaches_100 :
    (analyze_duplicates dfAllRowsEqual).percentage = 100
    ∧ (analyze_duplicates dfAllRowsEqual).total_duplicates = 20000
    ∧ 1 ≤ dfAllRowsEqual.nRows := by
  have hrows : Df.nRows dfAllRowsEqual = 20001 := by
    rw [Df.nRows]
    rw [show (Df.cols dfAllRowsEqual) = [⟨"a", List.replicate 20001 (.num 1)⟩] from rfl]
    rw [List.head?_cons, Option.map_some', Option.getD_some]
    rw [show Col.cells ⟨"a", List.replicate 20001 (.num 1)⟩ =
      List.replicate 20001 (.num 1) from rfl]
    rw [List.length_replicate]
  have hrl : Df.rowsList dfAllRowsEqual = List.replicate 20001 [Cell.num 1] := by
    apply List.eq_replicate.mpr
    constructor
    · rw [length_rowsList, hrows]
    · intro b hb
      rw [Df.rowsList] at hb
      rcases List.mem_map.mp hb with ⟨i, hi, hfb⟩
      rw [List.mem_range, hrows] at hi
      rw [← hfb]
      rw [show (Df.cols dfAllRowsEqual) = [⟨"a", List.replicate 20001 (.num 1)⟩] from rfl]
      rw [List.map_cons, List.map_nil]
      rw [show Col.cells ⟨"a", List.replicate 20001 (.num 1)⟩ =
        List.replicate 20001 (.num 1) from rfl]
      rw [getD_replicate _ _ _ i hi]
  have htd : Df.totalDuplicates dfAllRowsEqual = 20000 := by
    rw [Df.totalDuplicates, hrl]
    rw [show (20001 : ℕ) = 20000 + 1 from rfl, List.replicate_succ, dupCount]
    rw [if_neg (List.not_mem_nil _)]
    rw [dupCount_replicate_mem _ _ _ (List.mem_cons_self _ _)]
  refine ⟨?_, ?_, by rw [hrows]; norm_num⟩
  · rw [analyze_duplicates_percentage, htd, hrows]
    norm_num [round2, pyRound]
  · rw [analyze_duplicates_total_duplicates]
    exact htd

/-- C2 (amended): every emitted correlation entry stems from a pair that
passed the *unrounded* filter `|corr| > 0.3` (the reported rounded value
can equal 0.3 exactly, see the counterexample); the list is sorted by
descending absolute reported correlation, stably — for each key value
the entries appear in first-encountered pair order (`i` ascending then
`j` ascending, the order of `corrCandidates`); it has at most 10
entries; and it is empty whenever fewer than 2 numeric columns exist. -/
theorem c2_correlations_spec (df : Df) :
    (calculate_correlations df).length ≤ 10
    ∧ (calculate_correlations df).Pairwise (fun a b => corrKey b ≤ corrKey a)
    ∧ ((df.cols.filter Col.isNumeric).length < 2 → calculate_correlations df = [])
    ∧ (∀ e ∈ calculate_correlations df, e ∈ corrCandidates df)
    ∧ (∀ k : ℚ, (isortDesc corrKey (corrCandidates df)).filter
          (fun e => decide (corrKey e = k))
        = (corrCandidates df).filter (fun e => decide (corrKey e = k)))
    ∧ calculate_correlations df =
        (if (df.cols.filter Col.isNumeric).length < 2 then []
          else (isortDesc corrKey (corrCandidates df)).take 10) := by
  have hstab := fun k => filter_isortDesc corrKey k (corrCandidates df)
  by_cases h : (df.cols.filter Col.isNumeric).length < 2
  · have hempty : calculate_correlations df = [] := by
      rw [calculate_correlations, if_pos h]
    refine ⟨?_, ?_, fun _ => hempty, ?_, hstab, ?_⟩
    · rw [hempty]; simp
    · rw [hempty]; simp
    · rw [hempty]; simp
    · rw [hempty, if_pos h]
  · have heq : calculate_correlations df =
        (isortDesc corrKey (corrCandidates df)).take 10 := by
      rw [calculate_correlations, if_neg h]
    refine ⟨?_, ?_, fun hlt => absurd hlt h, ?_, hstab, ?_⟩
    · rw [heq, List.length_take]
      exact min_le_left _ _
    · rw [heq]
      exact (pairwise_isortDesc corrKey (corrCandidates df)).sublist
        (List.take_sublist 10 _)
    · intro e he
      rw [heq] at he
      have h1 : e ∈ isortDesc corrKey (corrCandidates df) :=
        (List.take_sublist 10 _).subset he
      exact (mem_isortDesc corrKey (corrCandidates df) e).mp h1
    · rw [heq, if_neg h]

/-- Evaluation of the correlation pipeline on the boundary frame: the
single pair passes the unrounded filter (10947/36485 > 3/10) and is
emitted with reported correlation exactly 0.300 (shared by the C2
counterexample and witness). -/
theorem calculate_correlations_boundary_eval :
    calculate_correlations dfCorrBoundary = [⟨"x", "y", 3/10⟩] := by
  have hnvx : colX.numVals = [some (-3), some (-1), some 1, some 3] := rfl
  have hnvy : colY.numVals =
      [some (-67645), some 93465, some (-93465), some 67645] := rfl
  have hps : pairStats colX.numVals colY.numVals = (218940, 532462090000) := by
    rw [hnvx, hnvy, pairStats]
    norm_num [List.zip, List.zipWith, List.filterMap]
  have hround : roundCorr3 218940 532462090000 = 3/10 := by
    rw [roundCorr3, if_neg (by norm_num : ¬ (218940 : ℚ) < 0)]
    rw [ratSqrtRound, ratSqrtFloor]
    rw [show ⌊(4 : ℚ) * (1000000 * (218940 : ℚ) ^ 2 / 532462090000)⌋ = 360098 by norm_num]
    rw [show Int.toNat 360098 = 360098 from by simp]
    rw [show Nat.sqrt 360098 = 600 from by norm_num]
    norm_num
  have hcand : corrCandidates dfCorrBoundary =
      [⟨"x", "y", roundCorr3 218940 532462090000⟩] := by
    rw [corrCandidates]
    rw [show dfCorrBoundary.cols.filter Col.isNumeric = [colX, colY] from by decide]
    rw [show pairsOf [colX, colY] = [(colX, colY)] from rfl]
    rw [List.filterMap_cons, List.filterMap_nil]
    rw [show (colX, colY).1 = colX from rfl, show (colX, colY).2 = colY from rfl]
    rw [hps]
    rw [if_pos ⟨by norm_num, by norm_num⟩]
    rfl
  rw [calculate_correlations]
  rw [if_neg (show ¬ (dfCorrBoundary.cols.filter Col.isNumeric).length < 2 from by decide)]
  rw [hcand, hround]
  rfl

/-- C2 (counterexample): the pair (x, y) of `dfCorrBoundary` passes the
unrounded `|corr| > 0.3` filter (corr = 10947/36485 > 0.3) but is
*reported* with the rounded correlation exactly 0.300, so the emitted
list contains an entry whose reported absolute correlation is not
strictly greater than 0.3 — refuting the claim as stated. -/
theorem c2_reported_value_not_above_threshold :
    calculate_correlations dfCorrBoundary = [⟨"x", "y", 3/10⟩]
    ∧ ¬ (∀ e ∈ calculate_correlations dfCorrBoundary, 3/10 < |e.correlation|) := by
  have heq := calculate_correlations_boundary_eval
  refine ⟨heq, ?_⟩
  intro hall
  have hmem : (⟨"x", "y", (3 : ℚ)/10⟩ : CorrEntry) ∈ calculate_correlations dfCorrBoundary := by
    rw [heq]
    exact List.mem_singleton.mpr rfl
  have hlt := hall _ hmem
  rw [show (⟨"x", "y", (3 : ℚ)/10⟩ : CorrEntry).correlation = 3/10 from rfl] at hlt
  rw [abs_of_nonneg (by norm_num : (0 : ℚ) ≤ 3/10)] at hlt
  exact lt_irrefl _ hlt

/-- C8: for a non-numeric column, `get_column_statistics` reports the
categorical record whose `most_frequent` table has at most 5 entries,
is ordered by descending count, and among equal counts keeps the values
in first-seen order (their first-occurrence positions in the original
data increase along the list, third-component conjunct over the
underlying `value_counts` triples). -/
theorem c8_most_frequent_spec (df : Df) (c : Col)
    (hc : c ∈ df.cols) (h : c.isNumeric = false) :
    (c.name, colStat c) ∈ get_column_statistics df
    ∧ colStat c = .categorical c.nunique (mostFrequent c) c.nullCount
    ∧ (mostFrequent c).length ≤ 5
    ∧ (mostFrequent c).Pairwise (fun a b => b.2 ≤ a.2)
    ∧ ((value_counts c).take 5).Pairwise
        (fun a b => b.2.1 < a.2.1 ∨ (a.2.1 = b.2.1 ∧ a.2.2 < b.2.2)) := by
  have hsorted : (value_counts c).Pairwise
      (fun a b => b.2.1 < a.2.1 ∨ (a.2.1 = b.2.1 ∧ a.2.2 < b.2.2)) := by
    have hidx := tallyFrom_pairwise_idx c.cells 0
    have := pairwise_isortDesc_ties (fun t => ((t.2.1 : ℕ) : ℚ))
      (fun a b => a.2.2 < b.2.2) (tallyFrom 0 c.cells) hidx
    rw [value_counts]
    refine this.imp ?_
    intro a b hab
    rcases hab with hlt | ⟨heq, hidx2⟩
    · simp only [] at hlt
      exact Or.inl (by exact_mod_cast hlt)
    · simp only [] at heq
      exact Or.inr ⟨by exact_mod_cast heq, hidx2⟩
  refine ⟨List.mem_map_of_mem _ hc, by rw [colStat, if_neg (by rw [h]; simp)], ?_, ?_, ?_⟩
  · rw [mostFrequent, List.length_map, List.length_take]
    exact min_le_left _ _
  · rw [mostFrequent, List.pairwise_map]
    refine (hsorted.sublist (List.take_sublist 5 _)).imp ?_
    intro a b hab
    rcases hab with hlt | ⟨heq, _⟩
    · exact le_of_lt hlt
    · exact le_of_eq heq.symm
  · exact hsorted.sublist (List.take_sublist 5 _)

/-- Witness for C8: the hypotheses and conclusions instantiate on the
one-column frame holding `colCat`. -/
theorem c8_most_frequent_spec_witness :
    colCat ∈ (Df.mk [colCat]).cols ∧ colCat.isNumeric = false
    ∧ ((colCat.name, colStat colCat) ∈ get_column_statistics ⟨[colCat]⟩
      ∧ colStat colCat = .categorical colCat.nunique (mostFrequent colCat) colCat.nullCount
      ∧ (mostFrequent colCat).length ≤ 5
      ∧ (mostFrequent colCat).Pairwise (fun a b => b.2 ≤ a.2)
      ∧ ((value_counts colCat).take 5).Pairwise
          (fun a b => b.2.1 < a.2.1 ∨ (a.2.1 = b.2.1 ∧ a.2.2 < b.2.2))) :=
  ⟨by decide, by decide,
    c8_most_frequent_spec ⟨[colCat]⟩ colCat (by decide) (by decide)⟩

/-- Witness for C3: on the §8 outlier frame the moderate tier is
nonempty (it holds the outlier advisory), the member hypothesis can be
discharged, and the advisory is not the dead "Consistencia baja" one. -/
theorem c3_consistency_constant_85_witness :
    (calculate_data_quality dfOutlierExample).consistency = 85
    ∧ outlierRec dfOutlierExample ∈ (generate_recommendations dfOutlierExample).moderate
    ∧ (outlierRec dfOutlierExample).issue ≠ "Consistencia baja" := by
  have hmod : (generate_recommendations dfOutlierExample).moderate =
      (if (detect_outliers dfOutlierExample).total_outlier_percentage > 5
        then [outlierRec dfOutlierExample] else []) ++
      (if (calculate_data_quality dfOutlierExample).consistency < 80
        then [consistencyRec dfOutlierExample] else []) := rfl
  have hmem : outlierRec dfOutlierExample ∈
      (generate_recommendations dfOutlierExample).moderate := by
    rw [hmod, detect_outliers_example_eval]
    rw [if_pos (show ((5:ℚ) < 1667/100) from by norm_num)]
    exact List.mem_append_left _ (List.mem_singleton.mpr rfl)
  exact ⟨(c3_consistency_constant_85 dfOutlierExample).1, hmem,
    (c3_consistency_constant_85 dfOutlierExample).2 _ hmem⟩

/-- Witness for C2: with a single numeric column the hypothesis of the
fewer-than-two-columns conjunct holds and the emitted list is empty; on
the boundary frame the membership hypothesis of the filter conjunct is
discharged at the concrete emitted entry. -/
theorem c2_correlations_spec_witness :
    (dfTiny.cols.filter Col.isNumeric).length < 2
    ∧ calculate_correlations dfTiny = []
    ∧ (⟨"x", "y", (3 : ℚ)/10⟩ : CorrEntry) ∈ corrCandidates dfCorrBoundary :=
  ⟨by decide, (c2_correlations_spec dfTiny).2.2.1 (by decide),
    (c2_correlations_spec dfCorrBoundary).2.2.2.1 _
      (by rw [calculate_correlations_boundary_eval]; exact List.mem_singleton.mpr rfl)⟩
